import Mathlib

/-!
# Verification of the IMDS credential resolver (`src/aws/imds.py`, `src/aws/s3bucket.py`)

Shallow embedding of the credential-resolver component.  HTTP transport
(the `requests` library) and JSON decoding (the `json` library) are external
collaborators, so they are modelled as an explicit environment `Env`:

* `Env.put url headers`  models `requests.put(url, headers=..., timeout=...)`;
  `none` models a raised `requests.RequestException` (network failure),
  `some r` a received `Response` with status code and body text.
* `Env.get url headers`  models `requests.get(url, headers=..., timeout=...)`
  the same way.
* `Env.jsonParse body`   models `json.loads(body)`; `none` models a raised
  `JSONDecodeError`, `some d` a decoded credential dictionary.

Timeout values are real-time behaviour and are not modelled; they do not
affect any of the verified properties.

Python exceptions are modelled by the `Err` type and `Except Err`:
* `Err.requestException`       – a `requests.RequestException` escaping a call
* `Err.httpError s`            – `Response.raise_for_status()` raising `HTTPError`
* `Err.jsonDecodeError`        – `json.loads` raising `JSONDecodeError`
* `Err.keyError k`             – a dict subscript `d[k]` raising `KeyError`
* `Err.credentialNotFound key` – the resolver's
  `RuntimeError(f"No credentials found with AccessKeyId={access_key_id!r}")`,
  modelled as a named error carrying the requested access key id.
* `Err.importError n`          – `from m import n` raising `ImportError`
  because module `m` does not define `n`
* `Err.nameError n`            – evaluating an unbound name `n` raising
  `NameError`
-/

namespace Imds

/-- An HTTP response as seen through `requests`: final status code and body
text (`r.status_code`, `r.text`). -/
structure Response where
  status : Nat
  body : String
  deriving Repr, DecidableEq

/-- `requests.Response.ok`: true iff `status_code < 400`. -/
def Response.ok (r : Response) : Bool := r.status < 400

/-- A decoded credential payload: `json.loads` output used as a
string-keyed dictionary (all IMDS credential fields are strings). -/
abbrev CredDict := List (String × String)

/-- Python `d.get(k)`: `some v` for the first binding of `k`, else `none`. -/
def dictGet (d : CredDict) (k : String) : Option String :=
  match d with
  | [] => none
  | (k', v) :: rest => if k' = k then some v else dictGet rest k

/-- The external world: HTTP transport and the JSON decoder. -/
structure Env where
  put : String → List (String × String) → Option Response
  get : String → List (String × String) → Option Response
  jsonParse : String → Option CredDict

/-- Python exception outcomes of the embedded functions. -/
inductive Err where
  | requestException
  | httpError (status : Nat)
  | jsonDecodeError
  | keyError (key : String)
  | credentialNotFound (accessKeyId : String)
  | importError (name : String)
  | nameError (name : String)
  deriving Repr, DecidableEq

/-- Errors raised by the metadata transport layer (as opposed to JSON
decoding, dictionary lookup, or the resolver's own scan failure): the
spec's `MetadataUnavailable` kind. -/
def Err.isTransport : Err → Bool
  | .requestException => true
  | .httpError _ => true
  | _ => false

/-- Decidable equality of computation outcomes, so that concrete runs can
be checked by `decide`. -/
instance exceptDecEq {ε α : Type} [DecidableEq ε] [DecidableEq α] :
    DecidableEq (Except ε α)
  | .ok a, .ok b =>
      if h : a = b then .isTrue (by rw [h])
      else .isFalse (by intro hh; cases hh; exact h rfl)
  | .ok _, .error _ => .isFalse (fun h => Except.noConfusion h)
  | .error _, .ok _ => .isFalse (fun h => Except.noConfusion h)
  | .error e, .error f =>
      if h : e = f then .isTrue (by rw [h])
      else .isFalse (by intro hh; cases hh; exact h rfl)

/-- The spec's reading of a successful HTTP status: a 2xx code. -/
def is2xx (s : Nat) : Prop := 200 ≤ s ∧ s < 300

/-- `boto3.Session(aws_access_key_id=..., aws_secret_access_key=...,
aws_session_token=..., region_name=...)`: the resolver only constructs this
record and hands it off. -/
structure Session where
  aws_access_key_id : String
  aws_secret_access_key : String
  aws_session_token : Option String
  region_name : Option String
  deriving Repr, DecidableEq

/-- `IMDS_BASE = "http://169.254.169.254"`. -/
def IMDS_BASE : String := "http://169.254.169.254"

/-- URL of the IMDSv2 token endpoint, `f"{IMDS_BASE}/latest/api/token"`. -/
def tokenUrl : String := IMDS_BASE ++ "/latest/api/token"

/-- Headers sent with the token request. -/
def tokenRequestHeaders : List (String × String) :=
  [("X-aws-ec2-metadata-token-ttl-seconds", "21600")]

/-- `path.lstrip('/')` for the single character `'/'`. -/
def lstripSlash (s : String) : String :=
  String.mk (s.data.dropWhile (fun c => c = '/'))

/-- `f"{IMDS_BASE}/latest/meta-data/{path.lstrip('/')}"`. -/
def metaUrl (path : String) : String :=
  IMDS_BASE ++ "/latest/meta-data/" ++ lstripSlash path

/-- The headers of a metadata GET, built by `headers = {}` followed by
`if token: headers["X-aws-ec2-metadata-token"] = token`: Python truthiness,
so both `None` and the empty string send no header (IMDSv1 style). -/
def metadataHeaders : Option String → List (String × String)
  | none => []
  | some t => if t.isEmpty then [] else [("X-aws-ec2-metadata-token", t)]

/--
`get_imds_token()`: PUT to the token endpoint; on `r.ok` return `r.text`,
on a non-ok status or a `requests.RequestException` return `None`.
-/
def get_imds_token (env : Env) : Option String :=
  match env.put tokenUrl tokenRequestHeaders with
  | none => none
  | some r => if r.ok then some r.body else none

/--
`get_instance_metadata(path, token)`: GET the metadata URL with the optional
token header; `r.raise_for_status()` raises `HTTPError` exactly for status
codes in `[400, 600)`; otherwise return `r.text`.  A network failure
propagates as `requests.RequestException`.
-/
def get_instance_metadata (env : Env) (path : String) (token : Option String) :
    Except Err String :=
  match env.get (metaUrl path) (metadataHeaders token) with
  | none => .error .requestException
  | some r =>
      if 400 ≤ r.status ∧ r.status < 600 then .error (.httpError r.status)
      else .ok r.body

/-- Python `str.splitlines` line boundaries other than the two-character
`"\r\n"`: LF, CR, VT, FF, FS, GS, RS, NEL, LINE SEPARATOR, PARAGRAPH
SEPARATOR. -/
def isLineBreak (c : Char) : Bool :=
  c = '\n' || c = '\r' || c = '\x0b' || c = '\x0c' ||
  c = '\x1c' || c = '\x1d' || c = '\x1e' || c = '\u0085' ||
  c = ' ' || c = ' '

/-- Python `str.splitlines` over a character list, with the current line
accumulated in reverse: `"\r\n"` counts as a single boundary, a trailing
boundary produces no trailing empty line, and the empty string yields no
lines at all. -/
def splitlinesAux : List Char → List Char → List (List Char)
  | [], acc => if acc.isEmpty then [] else [acc.reverse]
  | '\r' :: '\n' :: cs, acc => acc.reverse :: splitlinesAux cs []
  | c :: cs, acc =>
      if isLineBreak c then acc.reverse :: splitlinesAux cs []
      else splitlinesAux cs (c :: acc)

/-- Python `str.splitlines()`. -/
def splitlines (s : String) : List (List Char) := splitlinesAux s.data []

/-- Characters stripped by Python `str.strip()` (the characters for which
`str.isspace()` holds). -/
def isPySpace (c : Char) : Bool :=
  c = ' ' || c = '\t' || c = '\n' || c = '\r' || c = '\x0b' || c = '\x0c' ||
  c = '\x1c' || c = '\x1d' || c = '\x1e' || c = '\x1f' ||
  c = '\u0085' || c = ' ' || c = ' ' ||
  (' ' ≤ c && c ≤ ' ') || c = ' ' || c = ' ' ||
  c = ' ' || c = ' ' || c = '　'

/-- Python `str.strip()` over a character list: drop whitespace from both
ends. -/
def pyStrip (cs : List Char) : List Char :=
  ((cs.dropWhile isPySpace).reverse.dropWhile isPySpace).reverse

/-- The list comprehension
`[line.strip() for line in raw.splitlines() if line.strip()]`:
keep the lines that are non-empty after stripping, each stripped. -/
def parseRoleListing (raw : String) : List String :=
  ((splitlines raw).filter (fun l => !(pyStrip l).isEmpty)).map
    (fun l => String.mk (pyStrip l))

/-- The spec's formulation of role-name listing, stated independently of
the source's comprehension: the sequence of lines of the body that are
non-empty after trimming whitespace, each trimmed, in the body's line
order. -/
def specRoleLines (body : String) : List String :=
  (splitlines body).filterMap (fun l =>
    if (pyStrip l).isEmpty then none
    else some (String.mk (pyStrip l)))

/--
`get_role_names(token)`: read `iam/security-credentials/` and split the body
into stripped non-empty lines.
-/
def get_role_names (env : Env) (token : Option String) :
    Except Err (List String) :=
  match get_instance_metadata env "iam/security-credentials/" token with
  | .error e => .error e
  | .ok raw => .ok (parseRoleListing raw)

/--
`get_role_credentials(role_name, token)`: read
`iam/security-credentials/{role_name}` and decode the body with
`json.loads`; a decode failure raises `JSONDecodeError`.
-/
def get_role_credentials (env : Env) (role_name : String)
    (token : Option String) : Except Err CredDict :=
  match get_instance_metadata env
      ("iam/security-credentials/" ++ role_name) token with
  | .error e => .error e
  | .ok raw =>
      match env.jsonParse raw with
      | none => .error .jsonDecodeError
      | some d => .ok d

/-- The scan condition of the resolver's loop:
`creds.get("AccessKeyId") == access_key_id and creds.get("Code") == "Success"`
(a missing key yields `None`, which never equals a string). -/
def credMatches (creds : CredDict) (access_key_id : String) : Bool :=
  dictGet creds "AccessKeyId" == some access_key_id &&
  dictGet creds "Code" == some "Success"

/-- The `boto3.Session(...)` construction inside the loop: the subscripts
`creds["AccessKeyId"]` and `creds["SecretAccessKey"]` raise `KeyError` when
the key is absent, while `creds.get("Token")` passes absence through as
`None`. -/
def buildSession (creds : CredDict) (region_name : Option String) :
    Except Err Session :=
  match dictGet creds "AccessKeyId" with
  | none => .error (.keyError "AccessKeyId")
  | some ak =>
      match dictGet creds "SecretAccessKey" with
      | none => .error (.keyError "SecretAccessKey")
      | some sk =>
          .ok { aws_access_key_id := ak, aws_secret_access_key := sk,
                aws_session_token := dictGet creds "Token",
                region_name := region_name }

/-- The `for role in roles` loop of `boto3_session_from_access_key_id`:
fetch each role's credentials in order, return a session from the first
matching and successful set, and raise the `RuntimeError` (modelled as
`credentialNotFound`) when the list is exhausted. -/
def scanRoles (env : Env) (token : Option String) (access_key_id : String)
    (region_name : Option String) : List String → Except Err Session
  | [] => .error (.credentialNotFound access_key_id)
  | role :: rest =>
      match get_role_credentials env role token with
      | .error e => .error e
      | .ok creds =>
          if credMatches creds access_key_id then
            buildSession creds region_name
          else
            scanRoles env token access_key_id region_name rest

/--
`boto3_session_from_access_key_id(access_key_id, region_name)`: acquire a
token (best effort), list role names, and scan the roles in order.
-/
def boto3_session_from_access_key_id (env : Env) (access_key_id : String)
    (region_name : Option String) : Except Err Session :=
  let token := get_imds_token env
  match get_role_names env token with
  | .error e => .error e
  | .ok roles => scanRoles env token access_key_id region_name roles

/-- An S3 client as `get_s3_client` is annotated and documented to
return: either `session.client("s3")` for a resolved session, or the
default `boto3.client("s3", region_name=...)`.  No execution path of
`src/aws/s3bucket.py` actually produces one — see `get_s3_client`. -/
inductive S3Client where
  | fromSession (s : Session)
  | defaultClient (region_name : Option String)
  deriving Repr, DecidableEq

/-- The names `src/aws/imds.py` defines at module top level (the
candidates a `from imds import ...` can bind). -/
def imdsModuleNames : List String :=
  ["get_imds_token", "get_instance_metadata", "get_role_names",
   "get_role_credentials", "boto3_session_from_access_key_id"]

/-- The first line of `src/aws/s3bucket.py`,
`from imds import boto3_session_from_role_name`: importing a name the
`imds` module does not define raises `ImportError`, so the module never
finishes loading. -/
def s3bucketImport : Except Err Unit :=
  if imdsModuleNames.contains "boto3_session_from_role_name" then .ok ()
  else .error (.importError "boto3_session_from_role_name")

/--
`get_s3_client(role_name=..., region_name=...)` from `src/aws/s3bucket.py`
as it actually executes.  The module's import line fails, so no call ever
reaches the body.  Even under a repaired import the body cannot succeed:
`if role_name:` (Python truthiness) picks a branch, and the truthy branch
evaluates the unbound name `boto3_session_from_access_key_id` while the
falsy branch evaluates the unbound name `boto3` — the module binds
neither, so each branch raises `NameError` before any network call or
client construction (the callable is looked up before its arguments, so
no resolver call happens and no environment is consulted).
-/
def get_s3_client (role_name : Option String)
    (region_name : Option String) : Except Err S3Client :=
  match s3bucketImport with
  | .error e => .error e
  | .ok _ =>
      match role_name with
      | some rn =>
          if rn.isEmpty then .error (.nameError "boto3")
          else .error (.nameError "boto3_session_from_access_key_id")
      | none => .error (.nameError "boto3")

/-! ## Concrete environments

Concrete instantiations of `Env` used to evaluate the theorems on the
spec's scenarios: a single attached role `ec2-role` with the payload
`{"AccessKeyId":"AKIA123","SecretAccessKey":"secret","Token":"tok",
"Code":"Success"}`, a two-role instance where role `A` is `Failed` and
role `B` matches, an instance serving a malformed credential body, an
instance answering the role listing with HTTP 304, and instances whose
payloads lack the `SecretAccessKey` or `Token` field. -/

/-- The credential payload text of the spec's concrete scenario. -/
def credsJson : String :=
  "\x7b\"AccessKeyId\":\"AKIA123\",\"SecretAccessKey\":\"secret\",\"Token\":\"tok\",\"Code\":\"Success\"\x7d"

/-- The decoded form of `credsJson`. -/
def credsDict : CredDict :=
  [("AccessKeyId", "AKIA123"), ("SecretAccessKey", "secret"),
   ("Token", "tok"), ("Code", "Success")]

/-- Spec scenario: one role `ec2-role`, token endpoint unreachable. -/
def specEnv : Env where
  put := fun _ _ => none
  get := fun url _ =>
    if url = metaUrl "iam/security-credentials/" then
      some ⟨200, "ec2-role"⟩
    else if url = metaUrl "iam/security-credentials/ec2-role" then
      some ⟨200, credsJson⟩
    else none
  jsonParse := fun s => if s = credsJson then some credsDict else none

/-- A payload for the same access key with `Code = Failed`. -/
def failedJson : String :=
  "\x7b\"AccessKeyId\":\"AKIA123\",\"SecretAccessKey\":\"sA\",\"Token\":\"tA\",\"Code\":\"Failed\"\x7d"

/-- The decoded form of `failedJson`. -/
def failedDict : CredDict :=
  [("AccessKeyId", "AKIA123"), ("SecretAccessKey", "sA"),
   ("Token", "tA"), ("Code", "Failed")]

/-- Two roles `A` (Failed) and `B` (Success, matching); the token endpoint
answers, so the IMDSv2 path is exercised. -/
def twoRoleEnv : Env where
  put := fun _ _ => some ⟨200, "TOKEN"⟩
  get := fun url _ =>
    if url = metaUrl "iam/security-credentials/" then
      some ⟨200, "A\nB"⟩
    else if url = metaUrl "iam/security-credentials/A" then
      some ⟨200, failedJson⟩
    else if url = metaUrl "iam/security-credentials/B" then
      some ⟨200, credsJson⟩
    else none
  jsonParse := fun s =>
    if s = credsJson then some credsDict
    else if s = failedJson then some failedDict
    else none

/-- One role whose credential body does not decode as JSON. -/
def badJsonEnv : Env where
  put := fun _ _ => none
  get := fun url _ =>
    if url = metaUrl "iam/security-credentials/" then
      some ⟨200, "bad-role"⟩
    else if url = metaUrl "iam/security-credentials/bad-role" then
      some ⟨200, "notjson"⟩
    else none
  jsonParse := fun _ => none

/-- The role listing answers with HTTP status 304 (non-2xx, below 400). -/
def env304 : Env where
  put := fun _ _ => none
  get := fun url _ =>
    if url = metaUrl "iam/security-credentials/" then
      some ⟨304, "ec2-role"⟩
    else none
  jsonParse := fun _ => none

/-- A matching Success payload that lacks `SecretAccessKey`. -/
def noSecretJson : String :=
  "\x7b\"AccessKeyId\":\"AKIA777\",\"Code\":\"Success\"\x7d"

/-- The decoded form of `noSecretJson`. -/
def noSecretDict : CredDict :=
  [("AccessKeyId", "AKIA777"), ("Code", "Success")]

/-- One role `r1` whose payload lacks `SecretAccessKey`. -/
def noSecretEnv : Env where
  put := fun _ _ => none
  get := fun url _ =>
    if url = metaUrl "iam/security-credentials/" then
      some ⟨200, "r1"⟩
    else if url = metaUrl "iam/security-credentials/r1" then
      some ⟨200, noSecretJson⟩
    else none
  jsonParse := fun s => if s = noSecretJson then some noSecretDict else none

/-- A matching Success payload that lacks the `Token` field. -/
def noSessTokenJson : String :=
  "\x7b\"AccessKeyId\":\"AKIA888\",\"SecretAccessKey\":\"s8\",\"Code\":\"Success\"\x7d"

/-- The decoded form of `noSessTokenJson`. -/
def noSessTokenDict : CredDict :=
  [("AccessKeyId", "AKIA888"), ("SecretAccessKey", "s8"), ("Code", "Success")]

/-- One role `r2` whose payload lacks the `Token` field. -/
def noSessTokenEnv : Env where
  put := fun _ _ => none
  get := fun url _ =>
    if url = metaUrl "iam/security-credentials/" then
      some ⟨200, "r2"⟩
    else if url = metaUrl "iam/security-credentials/r2" then
      some ⟨200, noSessTokenJson⟩
    else none
  jsonParse := fun s =>
    if s = noSessTokenJson then some noSessTokenDict else none

/-! ## Helper lemmas -/

/-- The scan condition holds exactly when both the access key and the
`Success` code are present and equal to the requested values. -/
lemma credMatches_true_iff (c : CredDict) (key : String) :
    credMatches c key = true ↔
      dictGet c "AccessKeyId" = some key ∧
      dictGet c "Code" = some "Success" := by
  simp [credMatches]

/-- When role names have been listed, the resolver is exactly the scan of
that list with the acquired token. -/
lemma resolver_eq_scan (env : Env) (key : String) (region : Option String)
    (roles : List String)
    (h : get_role_names env (get_imds_token env) = .ok roles) :
    boto3_session_from_access_key_id env key region =
      scanRoles env (get_imds_token env) key region roles := by
  unfold boto3_session_from_access_key_id
  simp only [h]

/-- A prefix of roles whose credential sets all fetch successfully but fail
the scan condition is skipped by the loop. -/
lemma scanRoles_skip (env : Env) (token : Option String) (key : String)
    (region : Option String) (pre rest : List String)
    (h : ∀ r ∈ pre, ∃ c, get_role_credentials env r token = .ok c ∧
      credMatches c key = false) :
    scanRoles env token key region (pre ++ rest) =
      scanRoles env token key region rest := by
  induction pre with
  | nil => rfl
  | cons r pre ih =>
      obtain ⟨c, hc, hm⟩ := h r (List.mem_cons_self r pre)
      simp only [List.cons_append, scanRoles, hc, hm]
      exact ih (fun r' hr' => h r' (List.mem_cons_of_mem _ hr'))

/-- When the scan returns a session, some scanned role produced a
credential set that fetched successfully, passed the scan condition, and
was the one the session was built from. -/
lemma scanRoles_ok (env : Env) (token : Option String) (key : String)
    (region : Option String) :
    ∀ (roles : List String) (s : Session),
      scanRoles env token key region roles = .ok s →
      ∃ role ∈ roles, ∃ c, get_role_credentials env role token = .ok c ∧
        credMatches c key = true ∧ buildSession c region = .ok s := by
  intro roles
  induction roles with
  | nil => intro s h; simp [scanRoles] at h
  | cons r rest ih =>
      intro s h
      rw [scanRoles] at h
      cases hc : get_role_credentials env r token with
      | error e => simp only [hc] at h; exact Except.noConfusion h
      | ok c =>
          simp only [hc] at h
          by_cases hm : credMatches c key = true
          · rw [if_pos hm] at h
            exact ⟨r, List.mem_cons_self r rest, c, hc, hm, h⟩
          · rw [if_neg hm] at h
            obtain ⟨role, hmem, c', hc', hm', hb'⟩ := ih s h
            exact ⟨role, List.mem_cons_of_mem _ hmem, c', hc', hm', hb'⟩

/-- Field-level content of a successful session construction. -/
lemma buildSession_fields (c : CredDict) (region : Option String)
    (s : Session) (h : buildSession c region = .ok s) :
    dictGet c "AccessKeyId" = some s.aws_access_key_id ∧
    dictGet c "SecretAccessKey" = some s.aws_secret_access_key ∧
    s.aws_session_token = dictGet c "Token" ∧ s.region_name = region := by
  unfold buildSession at h
  cases hak : dictGet c "AccessKeyId" with
  | none => rw [hak] at h; exact Except.noConfusion h
  | some ak =>
      rw [hak] at h
      cases hsk : dictGet c "SecretAccessKey" with
      | none => rw [hsk] at h; exact Except.noConfusion h
      | some sk =>
          rw [hsk] at h
          cases h
          exact ⟨rfl, rfl, rfl, rfl⟩

set_option maxHeartbeats 1000000 in
/-- Every character of every line produced by `splitlinesAux` comes from
the input or from the accumulator. -/
lemma splitlinesAux_chars :
    ∀ (cs acc : List Char), ∀ l ∈ splitlinesAux cs acc, ∀ c ∈ l,
      c ∈ cs ∨ c ∈ acc := by
  intro cs acc
  induction cs, acc using splitlinesAux.induct with
  | case1 acc hacc =>
      intro l hl
      rw [splitlinesAux, if_pos hacc] at hl
      exact absurd hl (List.not_mem_nil l)
  | case2 acc hacc =>
      intro l hl c hc
      rw [splitlinesAux, if_neg hacc] at hl
      rw [List.mem_singleton] at hl
      subst hl
      exact Or.inr (List.mem_reverse.1 hc)
  | case3 cs acc ih =>
      intro l hl c hc
      rw [splitlinesAux] at hl
      rcases List.mem_cons.1 hl with h | h
      · subst h; exact Or.inr (List.mem_reverse.1 hc)
      · rcases ih l h c hc with h' | h'
        · exact Or.inl (List.mem_cons_of_mem _ (List.mem_cons_of_mem _ h'))
        · exact absurd h' (List.not_mem_nil c)
  | case4 c₀ cs acc hne hbrk ih =>
      intro l hl c hc
      rw [splitlinesAux] at hl
      rotate_left
      · exact hne
      rw [if_pos hbrk] at hl
      rcases List.mem_cons.1 hl with h | h
      · subst h; exact Or.inr (List.mem_reverse.1 hc)
      · rcases ih l h c hc with h' | h'
        · exact Or.inl (List.mem_cons_of_mem _ h')
        · exact absurd h' (List.not_mem_nil c)
  | case5 c₀ cs acc hne hbrk ih =>
      intro l hl c hc
      rw [splitlinesAux] at hl
      rotate_left
      · exact hne
      rw [if_neg hbrk] at hl
      rcases ih l hl c hc with h' | h'
      · exact Or.inl (List.mem_cons_of_mem _ h')
      · rcases List.mem_cons.1 h' with h'' | h''
        · subst h''; exact Or.inl (List.mem_cons_self _ _)
        · exact Or.inr h''

/-- Stripping a line of whitespace characters only yields the empty
line. -/
lemma pyStrip_all_space (l : List Char)
    (h : ∀ c ∈ l, isPySpace c = true) : pyStrip l = [] := by
  have h1 : l.dropWhile isPySpace = [] := List.dropWhile_eq_nil_iff.2 h
  simp [pyStrip, h1]

/-- The filtered-then-mapped comprehension of the source equals the
filterMap formulation of the spec sentence. -/
lemma parseRoleListing_eq_filterMap (raw : String) :
    parseRoleListing raw =
      (splitlines raw).filterMap (fun l =>
        if (pyStrip l).isEmpty then none
        else some (String.mk (pyStrip l))) := by
  unfold parseRoleListing
  induction splitlines raw with
  | nil => rfl
  | cons l L ih =>
      rw [List.filter_cons, List.filterMap_cons]
      cases h : (pyStrip l).isEmpty with
      | true => simp [h, ih]
      | false => simp [h, ih]

/-- The source's comprehension agrees with the spec's line-listing
formulation. -/
lemma parseRoleListing_eq_spec (raw : String) :
    parseRoleListing raw = specRoleLines raw := by
  rw [parseRoleListing_eq_filterMap]
  rfl

/-- Soundness of a successful resolution: the returned session comes from
a listed role's matching and successful credential set. -/
lemma resolver_ok_sound (env : Env) (key : String) (region : Option String)
    (s : Session)
    (h : boto3_session_from_access_key_id env key region = .ok s) :
    ∃ roles, get_role_names env (get_imds_token env) = .ok roles ∧
      ∃ role ∈ roles, ∃ c,
        get_role_credentials env role (get_imds_token env) = .ok c ∧
        dictGet c "AccessKeyId" = some key ∧
        dictGet c "Code" = some "Success" ∧
        s.aws_access_key_id = key ∧
        dictGet c "SecretAccessKey" = some s.aws_secret_access_key ∧
        s.aws_session_token = dictGet c "Token" ∧
        s.region_name = region := by
  unfold boto3_session_from_access_key_id at h
  cases hroles : get_role_names env (get_imds_token env) with
  | error e => simp only [hroles] at h; exact Except.noConfusion h
  | ok roles =>
      simp only [hroles] at h
      obtain ⟨role, hmem, c, hc, hm, hb⟩ :=
        scanRoles_ok env (get_imds_token env) key region roles s h
      obtain ⟨hak, hcode⟩ := (credMatches_true_iff c key).1 hm
      obtain ⟨hak', hsk', htok', hreg'⟩ := buildSession_fields c region s hb
      refine ⟨roles, rfl, role, hmem, c, hc, hak, hcode, ?_, hsk', htok',
        hreg'⟩
      rw [hak] at hak'
      exact (Option.some.injEq _ _ ▸ hak').symm

/-- When every listed role's credential set fetches successfully and fails
the scan condition, the resolver raises the not-found error. -/
lemma resolver_not_found_core (env : Env) (key : String)
    (region : Option String) (roles : List String)
    (hroles : get_role_names env (get_imds_token env) = .ok roles)
    (hall : ∀ r ∈ roles, ∃ c,
      get_role_credentials env r (get_imds_token env) = .ok c ∧
      credMatches c key = false) :
    boto3_session_from_access_key_id env key region =
      .error (.credentialNotFound key) := by
  rw [resolver_eq_scan env key region roles hroles]
  have h := scanRoles_skip env (get_imds_token env) key region roles [] hall
  rw [List.append_nil] at h
  rw [h, scanRoles]

/-- A metadata read fails with a transport error exactly when the HTTP
call yields no response or a status in the `raise_for_status` range. -/
lemma gim_transport_iff (env : Env) (path : String) (token : Option String) :
    (∃ e, get_instance_metadata env path token = .error e ∧
      e.isTransport = true) ↔
    (env.get (metaUrl path) (metadataHeaders token) = none ∨
     ∃ r, env.get (metaUrl path) (metadataHeaders token) = some r ∧
       400 ≤ r.status ∧ r.status < 600) := by
  unfold get_instance_metadata
  cases hg : env.get (metaUrl path) (metadataHeaders token) with
  | none => simp [Err.isTransport]
  | some r =>
      by_cases hs : 400 ≤ r.status ∧ r.status < 600
      · simp [hs, Err.isTransport]
      · simp [hs]

/-- Role listing fails exactly when its underlying metadata read does,
with the same error. -/
lemma grn_error_iff (env : Env) (token : Option String) (e : Err) :
    get_role_names env token = .error e ↔
    get_instance_metadata env "iam/security-credentials/" token =
      .error e := by
  unfold get_role_names
  cases h : get_instance_metadata env "iam/security-credentials/" token with
  | error e' => simp
  | ok raw => simp

/-- Credential fetch fails with a transport error exactly when its
underlying metadata read does. -/
lemma grc_transport_iff (env : Env) (role : String)
    (token : Option String) :
    (∃ e, get_role_credentials env role token = .error e ∧
      e.isTransport = true) ↔
    (∃ e, get_instance_metadata env ("iam/security-credentials/" ++ role)
      token = .error e ∧ e.isTransport = true) := by
  unfold get_role_credentials
  cases h : get_instance_metadata env ("iam/security-credentials/" ++ role)
      token with
  | error e' => simp
  | ok raw =>
      cases hj : env.jsonParse raw with
      | none => simp [hj, Err.isTransport]
      | some d => simp [hj]

/-! ## Claim theorems -/

/-- Claim C1: for every role list returned by the metadata service and
every requested accessKeyId, `boto3_session_from_access_key_id` scans the
roles in the order returned, fetches each role's credential set, and
returns a session built from the first credential set whose `AccessKeyId`
equals the requested value and whose `Code` is `Success`; roles with a
non-matching key or a non-`Success` code are skipped, so a later matching
and successful role wins. -/
theorem resolver_first_match (env : Env) (key : String)
    (region : Option String) (pre post : List String) (role : String)
    (creds : CredDict) (sk : String)
    (hroles : get_role_names env (get_imds_token env) =
      .ok (pre ++ role :: post))
    (hpre : ∀ r ∈ pre, ∃ c,
      get_role_credentials env r (get_imds_token env) = .ok c ∧
      credMatches c key = false)
    (hrole : get_role_credentials env role (get_imds_token env) = .ok creds)
    (hak : dictGet creds "AccessKeyId" = some key)
    (hcode : dictGet creds "Code" = some "Success")
    (hsk : dictGet creds "SecretAccessKey" = some sk) :
    boto3_session_from_access_key_id env key region =
      .ok { aws_access_key_id := key, aws_secret_access_key := sk,
            aws_session_token := dictGet creds "Token",
            region_name := region } := by
  rw [resolver_eq_scan env key region _ hroles,
      scanRoles_skip env (get_imds_token env) key region pre _ hpre]
  have hm : credMatches creds key = true :=
    (credMatches_true_iff _ _).2 ⟨hak, hcode⟩
  rw [scanRoles]
  simp only [hrole, hm, if_true]
  unfold buildSession
  rw [hak, hsk]

/-- Claim C1 witness: on the two-role instance where role `A` is `Failed`
and role `B` matches with `Success`, the resolver returns B's session. -/
theorem resolver_first_match_witness :
    boto3_session_from_access_key_id twoRoleEnv "AKIA123" none =
      .ok { aws_access_key_id := "AKIA123", aws_secret_access_key := "secret",
            aws_session_token := some "tok", region_name := none } := by
  have h := resolver_first_match twoRoleEnv "AKIA123" none ["A"] [] "B"
    credsDict "secret" (by decide)
    (by
      intro r hr
      rw [List.mem_singleton] at hr
      subst hr
      exact ⟨failedDict, by decide, by decide⟩)
    (by decide) (by decide) (by decide) (by decide)
  exact h

/-- Claim C2: when every role's credential set fetches successfully but
none both matches the requested accessKeyId and has `Success` code
(including the empty role list), the resolver fails with the
credential-not-found error carrying the requested accessKeyId. -/
theorem resolver_credential_not_found (env : Env) (key : String)
    (region : Option String) (roles : List String)
    (hroles : get_role_names env (get_imds_token env) = .ok roles)
    (hall : ∀ r ∈ roles, ∃ c,
      get_role_credentials env r (get_imds_token env) = .ok c ∧
      credMatches c key = false) :
    boto3_session_from_access_key_id env key region =
      .error (.credentialNotFound key) :=
  resolver_not_found_core env key region roles hroles hall

/-- Claim C2 witness: on the spec's single-role instance, requesting
`AKIA999` fails with `credentialNotFound "AKIA999"`. -/
theorem resolver_credential_not_found_witness :
    boto3_session_from_access_key_id specEnv "AKIA999" none =
      .error (.credentialNotFound "AKIA999") := by
  have h := resolver_credential_not_found specEnv "AKIA999" none ["ec2-role"]
    (by decide)
    (by
      intro r hr
      rw [List.mem_singleton] at hr
      subst hr
      exact ⟨credsDict, by decide, by decide⟩)
  exact h

/-- Claim C3: whenever the resolver returns a session, that session was
built from the credential set of some listed role whose `AccessKeyId`
equals the requested identifier and whose `Code` is `Success`; its fields
come from exactly that credential set. -/
theorem resolver_success_invariant (env : Env) (key : String)
    (region : Option String) (s : Session)
    (h : boto3_session_from_access_key_id env key region = .ok s) :
    ∃ roles, get_role_names env (get_imds_token env) = .ok roles ∧
      ∃ role ∈ roles, ∃ c,
        get_role_credentials env role (get_imds_token env) = .ok c ∧
        dictGet c "AccessKeyId" = some key ∧
        dictGet c "Code" = some "Success" ∧
        s.aws_access_key_id = key ∧
        dictGet c "SecretAccessKey" = some s.aws_secret_access_key ∧
        s.aws_session_token = dictGet c "Token" ∧
        s.region_name = region :=
  resolver_ok_sound env key region s h

/-- Claim C3 witness: the invariant instantiated on the spec's concrete
scenario. -/
theorem resolver_success_invariant_witness :
    ∃ roles, get_role_names specEnv (get_imds_token specEnv) = .ok roles ∧
      ∃ role ∈ roles, ∃ c,
        get_role_credentials specEnv role (get_imds_token specEnv) = .ok c ∧
        dictGet c "AccessKeyId" = some "AKIA123" ∧
        dictGet c "Code" = some "Success" ∧
        (Session.mk "AKIA123" "secret" (some "tok") none).aws_access_key_id
          = "AKIA123" ∧
        dictGet c "SecretAccessKey" = some
          (Session.mk "AKIA123" "secret" (some "tok")
            none).aws_secret_access_key ∧
        (Session.mk "AKIA123" "secret" (some "tok") none).aws_session_token
          = dictGet c "Token" ∧
        (Session.mk "AKIA123" "secret" (some "tok") none).region_name
          = none :=
  resolver_success_invariant specEnv "AKIA123" none
    (Session.mk "AKIA123" "secret" (some "tok") none) (by decide)

/-- Claim C4: `get_imds_token` never raises (it is a total function into
`Option String`): it returns the response body as the token exactly when
the PUT to the token endpoint yields a response whose status is a success
(`r.ok`, i.e. status < 400), and returns `none` on a network failure or
any non-success status. -/
theorem get_imds_token_soft_failure (env : Env) :
    (∀ t, get_imds_token env = some t ↔
      ∃ r, env.put tokenUrl tokenRequestHeaders = some r ∧ r.ok = true ∧
        t = r.body) ∧
    (get_imds_token env = none ↔
      env.put tokenUrl tokenRequestHeaders = none ∨
      ∃ r, env.put tokenUrl tokenRequestHeaders = some r ∧
        r.ok = false) := by
  cases hp : env.put tokenUrl tokenRequestHeaders with
  | none =>
      have hval : get_imds_token env = none := by
        simp [get_imds_token, hp]
      simp [hval]
  | some r =>
      cases hok : r.ok with
      | true =>
          have hval : get_imds_token env = some r.body := by
            simp [get_imds_token, hp, hok]
          rw [hval]
          constructor
          · intro t
            constructor
            · intro h
              injection h with h'
              exact ⟨r, rfl, hok, h'.symm⟩
            · rintro ⟨r', hr', _, ht⟩
              injection hr' with hr''
              subst hr''
              rw [ht]
          · constructor
            · intro h; exact Option.noConfusion h
            · rintro (h | ⟨r', hr', hko⟩)
              · exact Option.noConfusion h
              · injection hr' with hr''
                subst hr''
                rw [hok] at hko
                exact Bool.noConfusion hko
      | false =>
          have hval : get_imds_token env = none := by
            simp [get_imds_token, hp, hok]
          rw [hval]
          constructor
          · intro t
            constructor
            · intro h; exact Option.noConfusion h
            · rintro ⟨r', hr', hko, _⟩
              injection hr' with hr''
              subst hr''
              rw [hok] at hko
              exact Bool.noConfusion hko
          · constructor
            · intro _; exact Or.inr ⟨r, rfl, hok⟩
            · intro _; rfl

/-- Claim C5: when token acquisition yields no token, the resolver still
proceeds to role listing, issuing the metadata GET with an empty header
list (no token header, IMDSv1 style) and continuing the scan from its
response, rather than failing immediately. -/
theorem resolver_proceeds_without_token (env : Env) (key : String)
    (region : Option String) (h : get_imds_token env = none) :
    boto3_session_from_access_key_id env key region =
      match env.get (metaUrl "iam/security-credentials/") [] with
      | none => .error .requestException
      | some r =>
          if 400 ≤ r.status ∧ r.status < 600 then .error (.httpError r.status)
          else scanRoles env none key region (parseRoleListing r.body) := by
  unfold boto3_session_from_access_key_id get_role_names
    get_instance_metadata
  simp only [h, metadataHeaders]
  cases hg : env.get (metaUrl "iam/security-credentials/") [] with
  | none => rfl
  | some r =>
      by_cases hs : 400 ≤ r.status ∧ r.status < 600
      · simp [hs]
      · simp [hs]

/-- Claim C5 witness: on the spec scenario's instance the token endpoint
is unreachable, and the resolver still proceeds to the tokenless role
listing. -/
theorem resolver_proceeds_without_token_witness :
    get_imds_token specEnv = none ∧
    boto3_session_from_access_key_id specEnv "AKIA123" none =
      match specEnv.get (metaUrl "iam/security-credentials/") [] with
      | none => .error .requestException
      | some r =>
          if 400 ≤ r.status ∧ r.status < 600 then
            .error (.httpError r.status)
          else scanRoles specEnv none "AKIA123" none
            (parseRoleListing r.body) :=
  ⟨rfl, resolver_proceeds_without_token specEnv "AKIA123" none rfl⟩

/-- Claim C6: when a scanned role's credential body does not decode,
`get_role_credentials` fails with the JSON-decode error
(`MalformedCredentialPayload`), and the resolver propagates that failure
instead of skipping to the next role. -/
theorem malformed_payload_propagates (env : Env) (key : String)
    (region : Option String) (pre post : List String) (role raw : String)
    (hroles : get_role_names env (get_imds_token env) =
      .ok (pre ++ role :: post))
    (hpre : ∀ r ∈ pre, ∃ c,
      get_role_credentials env r (get_imds_token env) = .ok c ∧
      credMatches c key = false)
    (hraw : get_instance_metadata env ("iam/security-credentials/" ++ role)
      (get_imds_token env) = .ok raw)
    (hbad : env.jsonParse raw = none) :
    get_role_credentials env role (get_imds_token env) =
      .error .jsonDecodeError ∧
    boto3_session_from_access_key_id env key region =
      .error .jsonDecodeError := by
  have hfetch : get_role_credentials env role (get_imds_token env) =
      .error .jsonDecodeError := by
    simp only [get_role_credentials, hraw, hbad]
  refine ⟨hfetch, ?_⟩
  rw [resolver_eq_scan env key region _ hroles,
      scanRoles_skip env (get_imds_token env) key region pre _ hpre,
      scanRoles]
  simp only [hfetch]

/-- Claim C6 witness: one role whose body is not JSON; the fetch and the
whole resolution fail with the JSON-decode error. -/
theorem malformed_payload_propagates_witness :
    get_role_credentials badJsonEnv "bad-role" (get_imds_token badJsonEnv) =
      .error .jsonDecodeError ∧
    boto3_session_from_access_key_id badJsonEnv "AKIA123" none =
      .error .jsonDecodeError :=
  malformed_payload_propagates badJsonEnv "AKIA123" none [] [] "bad-role"
    "notjson" (by decide)
    (by intro r hr; exact absurd hr (List.not_mem_nil r))
    (by decide) rfl

/-- Claim C7 counterexample: the role-listing call answers with HTTP 304
— a non-2xx status — yet `get_role_names` returns the parsed role list
instead of failing, so "fails iff non-2xx or network error" is false. -/
theorem role_listing_succeeds_on_304 :
    env304.get (metaUrl "iam/security-credentials/") (metadataHeaders none) =
      some (Response.mk 304 "ec2-role") ∧
    ¬ is2xx 304 ∧
    get_role_names env304 none = .ok ["ec2-role"] :=
  ⟨rfl, by unfold is2xx; omega, by decide⟩

/-- Claim C7 (amended): role listing and per-role credential fetch fail
with a transport (`MetadataUnavailable`) error iff the underlying metadata
HTTP call yields a network error or a status in the `raise_for_status`
range 400–599; any response with a status below 400 (2xx, but also e.g.
304) is treated as success and raises no transport error. -/
theorem metadata_unavailable_iff_transport_failure (env : Env)
    (role : String) (token : Option String) :
    ((∃ e, get_role_names env token = .error e ∧ e.isTransport = true) ↔
      (env.get (metaUrl "iam/security-credentials/")
        (metadataHeaders token) = none ∨
       ∃ r, env.get (metaUrl "iam/security-credentials/")
         (metadataHeaders token) = some r ∧
         400 ≤ r.status ∧ r.status < 600)) ∧
    ((∃ e, get_role_credentials env role token = .error e ∧
        e.isTransport = true) ↔
      (env.get (metaUrl ("iam/security-credentials/" ++ role))
        (metadataHeaders token) = none ∨
       ∃ r, env.get (metaUrl ("iam/security-credentials/" ++ role))
         (metadataHeaders token) = some r ∧
         400 ≤ r.status ∧ r.status < 600)) := by
  constructor
  · constructor
    · rintro ⟨e, he, ht⟩
      exact (gim_transport_iff env "iam/security-credentials/" token).1
        ⟨e, (grn_error_iff env token e).1 he, ht⟩
    · intro h
      obtain ⟨e, he, ht⟩ :=
        (gim_transport_iff env "iam/security-credentials/" token).2 h
      exact ⟨e, (grn_error_iff env token e).2 he, ht⟩
  · exact (grc_transport_iff env role token).trans
      (gim_transport_iff env ("iam/security-credentials/" ++ role) token)

/-- Claim C8: for every successful role-listing response body,
`get_role_names` returns exactly the body's lines that are non-empty
after trimming, each trimmed, in line order; a body of whitespace only
(or empty) yields the empty list. -/
theorem get_role_names_trimmed_lines (env : Env) (token : Option String)
    (status : Nat) (body : String)
    (hresp : env.get (metaUrl "iam/security-credentials/")
      (metadataHeaders token) = some (Response.mk status body))
    (hok : status < 400) :
    get_role_names env token = .ok (specRoleLines body) ∧
    ((∀ c ∈ body.data, isPySpace c = true) →
      get_role_names env token = .ok []) := by
  have hgim : get_instance_metadata env "iam/security-credentials/" token =
      .ok body := by
    simp only [get_instance_metadata, hresp]
    rw [if_neg (by omega)]
  have hnames : get_role_names env token = .ok (parseRoleListing body) := by
    simp only [get_role_names, hgim]
  constructor
  · rw [hnames, parseRoleListing_eq_spec]
  · intro hws
    have hlines : ∀ l ∈ splitlines body, ∀ c ∈ l, isPySpace c = true := by
      intro l hl c hc
      rcases splitlinesAux_chars body.data [] l hl c hc with h' | h'
      · exact hws c h'
      · exact absurd h' (List.not_mem_nil c)
    have hempty : parseRoleListing body = [] := by
      unfold parseRoleListing
      have hfilter : (splitlines body).filter
          (fun l => !(pyStrip l).isEmpty) = [] := by
        rw [List.filter_eq_nil_iff]
        intro l hl
        simp [pyStrip_all_space l (hlines l hl)]
      rw [hfilter]
      rfl
    rw [hnames, hempty]

/-- Claim C8 witness: on the spec scenario's listing body `"ec2-role"`. -/
theorem get_role_names_trimmed_lines_witness :
    get_role_names specEnv none = .ok (specRoleLines "ec2-role") ∧
    ((∀ c ∈ ("ec2-role" : String).data, isPySpace c = true) →
      get_role_names specEnv none = .ok []) :=
  get_role_names_trimmed_lines specEnv none 200 "ec2-role" (by decide)
    (by decide)

/-- Claim C9: when the scanned matching credential set has `Success` code
but lacks `SecretAccessKey`, the resolver fails with the key-lookup error
`keyError "SecretAccessKey"` (not the JSON-decode or not-found error),
whereas a missing `Token` field does not cause a failure: it is passed
through as an absent session token. -/
theorem resolver_missing_field_behaviour (env : Env) (key : String)
    (region : Option String) (pre post : List String) (role : String)
    (c : CredDict)
    (hroles : get_role_names env (get_imds_token env) =
      .ok (pre ++ role :: post))
    (hpre : ∀ r ∈ pre, ∃ c',
      get_role_credentials env r (get_imds_token env) = .ok c' ∧
      credMatches c' key = false)
    (hrole : get_role_credentials env role (get_imds_token env) = .ok c)
    (hak : dictGet c "AccessKeyId" = some key)
    (hcode : dictGet c "Code" = some "Success") :
    (dictGet c "SecretAccessKey" = none →
      boto3_session_from_access_key_id env key region =
        .error (.keyError "SecretAccessKey")) ∧
    (∀ sk, dictGet c "SecretAccessKey" = some sk →
      dictGet c "Token" = none →
      boto3_session_from_access_key_id env key region =
        .ok { aws_access_key_id := key, aws_secret_access_key := sk,
              aws_session_token := none, region_name := region }) := by
  have hm : credMatches c key = true :=
    (credMatches_true_iff _ _).2 ⟨hak, hcode⟩
  have hscan : boto3_session_from_access_key_id env key region =
      buildSession c region := by
    rw [resolver_eq_scan env key region _ hroles,
        scanRoles_skip env (get_imds_token env) key region pre _ hpre,
        scanRoles]
    simp only [hrole, hm, if_true]
  constructor
  · intro hsk
    rw [hscan]
    unfold buildSession
    rw [hak, hsk]
  · intro sk hsk htok
    rw [hscan]
    unfold buildSession
    rw [hak, hsk, htok]

/-- Claim C9 witness: a payload lacking `SecretAccessKey` raises the
key-lookup error; a payload lacking `Token` yields a session with an
absent session token. -/
theorem resolver_missing_field_behaviour_witness :
    boto3_session_from_access_key_id noSecretEnv "AKIA777" none =
      .error (.keyError "SecretAccessKey") ∧
    boto3_session_from_access_key_id noSessTokenEnv "AKIA888" none =
      .ok { aws_access_key_id := "AKIA888", aws_secret_access_key := "s8",
            aws_session_token := none, region_name := none } :=
  ⟨(resolver_missing_field_behaviour noSecretEnv "AKIA777" none [] [] "r1"
      noSecretDict (by decide)
      (by intro r hr; exact absurd hr (List.not_mem_nil r))
      (by decide) (by decide) (by decide)).1 rfl,
   (resolver_missing_field_behaviour noSessTokenEnv "AKIA888" none [] []
      "r2" noSessTokenDict (by decide)
      (by intro r hr; exact absurd hr (List.not_mem_nil r))
      (by decide) (by decide) (by decide)).2 "s8" rfl rfl⟩

/-- Claim C10: `src/aws/s3bucket.py` cannot behave as the claim
describes, at the failing input `role_name = some "AKIA123"` or any
other.  Its import line requests `boto3_session_from_role_name`, a name
the `imds` module does not define, so the module fails to load with
`ImportError`; and the body's branches reference the unbound names
`boto3_session_from_access_key_id` and `boto3`, so no call could return
a client even under a repaired import.  Every invocation errors instead
of resolving credentials or falling back to a default client. -/
theorem get_s3_client_never_returns_client :
    s3bucketImport = .error (.importError "boto3_session_from_role_name") ∧
    get_s3_client (some "AKIA123") none =
      .error (.importError "boto3_session_from_role_name") ∧
    get_s3_client none none =
      .error (.importError "boto3_session_from_role_name") ∧
    ∀ (role_name region_name : Option String) (cl : S3Client),
      get_s3_client role_name region_name ≠ .ok cl :=
  ⟨rfl, rfl, rfl, fun _ _ _ h => Except.noConfusion h⟩

end Imds
